import Mathlib

/-!
Shallow embedding of the SportEase booking backend (src/main.py together with
the collection schemas of src/schemas.py).

Modelling conventions:
* Each MongoDB collection is an association list keyed by the document id
  string; `find_one` is the first match in collection order, `update_one`
  updates the first match, `update_many` updates every match, and
  `modified_count` counts the documents an `update_many` changed.
* Monetary values are exact rationals; Python's `round(x, 2)` is embedded as
  round-half-to-even at two decimal places and `int(x)` as truncation toward
  zero.
* The outbound Razorpay order-creation HTTP call is a parameter of
  `create_booking` (`Option Order`, where `none` models any request failure:
  timeout, non-2xx, network error); the HMAC-SHA256 hexdigest of the
  `hashlib`/`hmac` libraries is a function parameter of `confirm_payment`.
* A raised `HTTPException` is an `Except.error`; MongoDB performs no rollback
  on an exception, so every operation returns the (possibly already mutated)
  store together with its result.
* Timestamps (`created_at`) and the request fields the handlers never read
  are not modelled.
-/

namespace SportEase

/-- One document of the `availabilityslot` collection (schemas.AvailabilitySlot). -/
structure Slot where
  venueId : String
  date : String
  startTime : String
  endTime : String
  status : String
deriving DecidableEq, Repr

/-- One document of the `venue` collection (the fields the booking flow reads). -/
structure Venue where
  ownerId : String
  name : String
  address : String
  pricePerHour : ℚ
deriving DecidableEq, Repr

/-- One document of the `booking` collection (schemas.Booking). -/
structure Booking where
  userId : String
  venueId : String
  slotIds : List String
  totalAmount : ℚ
  commission : ℚ
  paymentStatus : String
  status : String
  bookingCode : Option String
deriving DecidableEq, Repr

/-- One document of the `payment` collection (schemas.Payment). -/
structure Payment where
  bookingId : String
  amount : ℚ
  gateway : String
  orderId : String
  status : String
  transactionId : Option String
deriving DecidableEq, Repr

/-- A Razorpay order as the code reads it (`order["id"]`, `order["amount"]`). -/
structure Order where
  id : String
  amount : ℤ
  currency : String
deriving DecidableEq, Repr

/-- The database: the four collections the booking flow touches, plus the
ObjectId generator counter used for fresh booking ids. -/
structure Store where
  venues : List (String × Venue)
  slots : List (String × Slot)
  bookings : List (String × Booking)
  payments : List Payment
  nextOid : Nat
deriving DecidableEq, Repr

/-- The gateway environment: RAZORPAY_KEY_ID / RAZORPAY_KEY_SECRET
(empty string = unset, matching Python truthiness on `os.getenv(..., "")`). -/
structure Config where
  keyId : String
  keySecret : String
deriving DecidableEq, Repr

/-- The HTTPException variants raised by the booking flow. -/
inductive Err where
  | VenueNotFound
  | SlotConflict
  | InvalidSlots
  | SlotNotBookable
  | BookingNotFound
  | SignatureMismatch
deriving DecidableEq, Repr

/-- The HTTP status code attached to each raised error in src/main.py. -/
def errCode : Err → Nat
  | .VenueNotFound => 404
  | .SlotConflict => 409
  | .InvalidSlots => 400
  | .SlotNotBookable => 409
  | .BookingNotFound => 404
  | .SignatureMismatch => 400

/-- Floor of a rational as an integer (den is positive, so fdiv floors). -/
def ratFloor (q : ℚ) : ℤ := Int.fdiv q.num q.den

/-- Round to the nearest integer, ties to even: the rounding Python's
built-in `round` applies. -/
def roundHalfEven (q : ℚ) : ℤ :=
  let f := ratFloor q
  let r := q - (f : ℚ)
  if r < 1/2 then f
  else if (1 : ℚ)/2 < r then f + 1
  else if f % 2 = 0 then f else f + 1

/-- Python's `round(x, 2)` on an exact rational. -/
def round2 (q : ℚ) : ℚ := ((roundHalfEven (q * 100) : ℤ) : ℚ) / 100

/-- Python's `int(x)`: truncation toward zero. -/
def pyInt (q : ℚ) : ℤ := if q < 0 then - ratFloor (-q) else ratFloor q

/-- Mongo `update_one`: rewrite the first element satisfying `pred` with `f`. -/
def updateFirst {α : Type} (pred : α → Bool) (f : α → α) : List α → List α
  | [] => []
  | a :: rest => if pred a then f a :: rest else a :: updateFirst pred f rest

/-- The per-document effect of
`update_many({"_id": {"$in": ids}, "status": "available"}, {"$set": {"status": "reserved"}})`. -/
def resSlot (ids : List String) (p : String × Slot) : String × Slot :=
  if p.1 ∈ ids ∧ p.2.status = "available" then (p.1, { p.2 with status := "reserved" }) else p

/-- The whole conditional update of the `reserve`/`create_booking` handlers:
the rewritten collection and Mongo's `modified_count`. -/
def reserveAvailable (slots : List (String × Slot)) (ids : List String) :
    List (String × Slot) × Nat :=
  (slots.map (resSlot ids),
   (slots.filter (fun p => decide (p.1 ∈ ids ∧ p.2.status = "available"))).length)

/-- The per-document effect of
`update_many({"_id": {"$in": ids}}, {"$set": {"status": "booked"}})`. -/
def bookSlot (ids : List String) (p : String × Slot) : String × Slot :=
  if p.1 ∈ ids then (p.1, { p.2 with status := "booked" }) else p

/-- The unconditional booked-update of the confirmation handler. -/
def bookSlots (slots : List (String × Slot)) (ids : List String) : List (String × Slot) :=
  slots.map (bookSlot ids)

/-- POST /api/slots/reserve (src/main.py `reserve_slots`): conditionally move
the requested slots `available → reserved`, then compare `modified_count`
against the length of the request list.  The update has already happened when
the comparison fails, so the store returned on the error path carries the
partial mutation, exactly as MongoDB leaves it. -/
def reserve_slots (st : Store) ( _userId : String) (slotIds : List String) :
    Store × Except Err (List String) :=
  let r := reserveAvailable st.slots slotIds
  ({ st with slots := r.1 },
   if r.2 ≠ slotIds.length then .error .SlotConflict else .ok slotIds)

/-- The booking document inserted by `create_booking`. -/
def mkBooking (userId venueId : String) (slotIds : List String) (total : ℚ) : Booking :=
  { userId := userId, venueId := venueId, slotIds := slotIds, totalAmount := total,
    commission := round2 (total * (1/10)), paymentStatus := "pending", status := "pending",
    bookingCode := none }

/-- The dev-fallback order `{"id": f"order_{booking_id}", "amount": int(total*100), ...}`. -/
def fallbackOrder (bookingId : String) (total : ℚ) : Order :=
  { id := "order_" ++ bookingId, amount := pyInt (total * 100), currency := "INR" }

/-- The order `create_booking` ends up with: the gateway response when both
keys are configured and the HTTP call succeeded, the synthesized fallback
otherwise. -/
def chosenOrder (cfg : Config) (gwResp : Option Order) (bookingId : String) (total : ℚ) :
    Order :=
  if cfg.keyId ≠ "" ∧ cfg.keySecret ≠ "" then
    match gwResp with
    | some o => o
    | none => fallbackOrder bookingId total
  else fallbackOrder bookingId total

/-- The payment document inserted by `create_booking`. -/
def mkPayment (bookingId : String) (total : ℚ) (orderId : String) : Payment :=
  { bookingId := bookingId, amount := total, gateway := "razorpay", orderId := orderId,
    status := "created", transactionId := none }

/-- The JSON body returned by `create_booking`. -/
structure BookingResp where
  bookingId : String
  totalAmount : ℚ
  order : Order
  razorpayKeyId : String
deriving DecidableEq, Repr

/-- Fresh ObjectId generation for inserted bookings. -/
def genId (n : Nat) : String := "oid" ++ toString n

/-- `total_amount = round(price_per_hour * max(1, len(slotIds)), 2)`. -/
def bookingTotal (v : Venue) (slotIds : List String) : ℚ :=
  round2 (v.pricePerHour * ((max 1 slotIds.length : ℕ) : ℚ))

/-- `list(db["availabilityslot"].find({"_id": {"$in": ids}}))`. -/
def foundSlots (slots : List (String × Slot)) (ids : List String) : List (String × Slot) :=
  slots.filter (fun p => decide (p.1 ∈ ids))

/-- `s.get("status") not in ("available", "reserved")` holds for some found slot. -/
def hasTerminal (found : List (String × Slot)) : Bool :=
  found.any (fun p => decide (p.2.status ≠ "available" ∧ p.2.status ≠ "reserved"))

/-- The part of `create_booking` that runs once the venue document is in hand:
slot existence check, bookable-status check, conditional
`available → reserved` update, booking insert, gateway order (or fallback),
payment insert, response. -/
def create_booking_checked (cfg : Config) (gwResp : Option Order) (st : Store)
    (userId venueId : String) (slotIds : List String) (pv : String × Venue) :
    Store × Except Err BookingResp :=
  if (foundSlots st.slots slotIds).length ≠ slotIds.length then (st, .error .InvalidSlots)
  else if hasTerminal (foundSlots st.slots slotIds) then (st, .error .SlotNotBookable)
  else
    ({ st with
        slots := (reserveAvailable st.slots slotIds).1,
        bookings := st.bookings ++
          [(genId st.nextOid, mkBooking userId venueId slotIds (bookingTotal pv.2 slotIds))],
        payments := st.payments ++
          [mkPayment (genId st.nextOid) (bookingTotal pv.2 slotIds)
            (chosenOrder cfg gwResp (genId st.nextOid) (bookingTotal pv.2 slotIds)).id],
        nextOid := st.nextOid + 1 },
     .ok { bookingId := genId st.nextOid, totalAmount := bookingTotal pv.2 slotIds,
           order := chosenOrder cfg gwResp (genId st.nextOid) (bookingTotal pv.2 slotIds),
           razorpayKeyId := cfg.keyId })

/-- POST /api/bookings/create (src/main.py `create_booking`): venue lookup
(price computation), then `create_booking_checked`. -/
def create_booking (cfg : Config) (gwResp : Option Order) (st : Store)
    (userId venueId : String) (slotIds : List String) :
    Store × Except Err BookingResp :=
  match st.venues.find? (fun p => p.1 == venueId) with
  | none => (st, .error .VenueNotFound)
  | some pv => create_booking_checked cfg gwResp st userId venueId slotIds pv

/-- The request body of POST /api/payments/razorpay/confirm. -/
structure ConfirmArgs where
  bookingId : String
  razorpay_payment_id : String
  razorpay_order_id : String
  razorpay_signature : Option String
deriving DecidableEq, Repr

/-- The guard `payload.razorpay_signature and RAZORPAY_KEY_SECRET` followed by
the hexdigest comparison: `true` exactly when the handler raises
"Signature mismatch".  `hm secret msg` stands for
`hmac.new(secret, msg, hashlib.sha256).hexdigest()`. -/
def sigMismatch (cfg : Config) (hm : String → String → String) (args : ConfirmArgs) : Bool :=
  match args.razorpay_signature with
  | none => false
  | some s =>
    if s = "" ∨ cfg.keySecret = "" then false
    else decide (hm cfg.keySecret (args.razorpay_order_id ++ "|" ++ args.razorpay_payment_id) ≠ s)

/-- The `$set` applied to the booking by the confirmation handler. -/
def confirmBookingUpd (pid : String) (b : Booking) : Booking :=
  { b with paymentStatus := "paid", status := "confirmed", bookingCode := some pid }

/-- The `$set` applied to the payment by the confirmation handler. -/
def confirmPaymentUpd (pid : String) (p : Payment) : Payment :=
  { p with status := "paid", transactionId := some pid }

/-- POST /api/payments/razorpay/confirm (src/main.py `confirm_payment`):
optional signature verification, booking lookup, booking update, unconditional
booked-update of the booking's slots, payment update. -/
def confirm_payment (cfg : Config) (hm : String → String → String) (st : Store)
    (args : ConfirmArgs) : Store × Except Err String :=
  if sigMismatch cfg hm args then (st, .error .SignatureMismatch)
  else
    match st.bookings.find? (fun p => p.1 == args.bookingId) with
    | none => (st, .error .BookingNotFound)
    | some pr =>
      ({ st with
          bookings := updateFirst (fun p => p.1 == args.bookingId)
            (fun p => (p.1, confirmBookingUpd args.razorpay_payment_id p.2)) st.bookings,
          slots := bookSlots st.slots pr.2.slotIds,
          payments := updateFirst (fun p => p.bookingId == args.bookingId)
            (confirmPaymentUpd args.razorpay_payment_id) st.payments },
       .ok "confirmed")

/-- One public operation of the booking flow, applied to the store.  The
gateway response and the digest function are per-call parameters (they model
the external collaborators). -/
inductive Step (cfg : Config) : Store → Store → Prop where
  | reserve (st : Store) (u : String) (ids : List String) :
      Step cfg st (reserve_slots st u ids).1
  | create (st : Store) (gwResp : Option Order) (u v : String) (ids : List String) :
      Step cfg st (create_booking cfg gwResp st u v ids).1
  | confirm (st : Store) (hm : String → String → String) (args : ConfirmArgs) :
      Step cfg st (confirm_payment cfg hm st args).1

/-- Reachability by any sequence of the public operations. -/
def Reachable (cfg : Config) (st0 st : Store) : Prop :=
  Relation.ReflTransGen (Step cfg) st0 st

/-- The spec's booking/payment invariant: a paid booking is confirmed and
every slot it references is booked. -/
def PaidInv (st : Store) : Prop :=
  ∀ pb ∈ st.bookings, (pb : String × Booking).2.paymentStatus = "paid" →
    pb.2.status = "confirmed" ∧
    ∀ sid ∈ pb.2.slotIds, ∀ q ∈ st.slots, (q : String × Slot).1 = sid → q.2.status = "booked"

/-! Concrete fixtures used by witnesses and counterexamples. -/

/-- An available one-hour slot. -/
def slotA : Slot := ⟨"v1", "2024-01-01", "06:00", "07:00", "available"⟩

/-- A second available slot. -/
def slotA2 : Slot := ⟨"v1", "2024-01-01", "07:00", "08:00", "available"⟩

/-- An already booked slot. -/
def slotB : Slot := ⟨"v1", "2024-01-01", "07:00", "08:00", "booked"⟩

/-- A venue priced 500 per hour. -/
def venue1 : Venue := ⟨"o1", "Emerald Arena", "Vadodara", 500⟩

/-- Store with two available slots. -/
def stAvail : Store :=
  { venues := [("v1", venue1)], slots := [("s1", slotA), ("s2", slotA2)],
    bookings := [], payments := [], nextOid := 0 }

/-- Same venue, slot s1 available and slot s2 already booked. -/
def stMixed : Store :=
  { venues := [("v1", venue1)],
    slots := [("s1", slotA), ("s2", slotB)],
    bookings := [], payments := [], nextOid := 0 }

/-- A pending two-slot booking. -/
def bookingP : Booking :=
  { userId := "u1", venueId := "v1", slotIds := ["s1", "s2"], totalAmount := 1000,
    commission := 100, paymentStatus := "pending", status := "pending", bookingCode := none }

/-- Its payment record in status created. -/
def payP : Payment :=
  { bookingId := "b1", amount := 1000, gateway := "razorpay", orderId := "order_b1",
    status := "created", transactionId := none }

/-- Store holding the pending booking b1 with both of its slots reserved. -/
def stPend : Store :=
  { venues := [("v1", venue1)],
    slots := [("s1", { slotA with status := "reserved" }),
              ("s2", { slotB with status := "reserved" })],
    bookings := [("b1", bookingP)], payments := [payP], nextOid := 1 }

/-- Unconfigured gateway environment. -/
def cfg0 : Config := ⟨"", ""⟩

/-- Configured gateway environment. -/
def cfg1 : Config := ⟨"key_id", "secret"⟩

/-- A stand-in hexdigest function for unsigned flows. -/
def hm0 : String → String → String := fun _ _ => ""

/-- A concrete confirmation request for booking b1, unsigned. -/
def argsW : ConfirmArgs := ⟨"b1", "pay1", "o1", none⟩

/-- The response of the successful two-slot booking on `stAvail`. -/
def respW : BookingResp :=
  { bookingId := "oid0", totalAmount := 1000,
    order := { id := "order_oid0", amount := 100000, currency := "INR" },
    razorpayKeyId := "" }

/-- The empty store. -/
def stEmpty : Store := { venues := [], slots := [], bookings := [], payments := [], nextOid := 0 }

/-! Generic lemmas about the embedded Mongo operations. -/

theorem find?_updateFirst {α : Type} (pred : α → Bool) (f : α → α)
    (hp : ∀ a, pred (f a) = pred a) (l : List α) :
    (updateFirst pred f l).find? pred = (l.find? pred).map f := by
  induction l with
  | nil => rfl
  | cons x xs ih =>
    by_cases h : pred x = true
    · have hfx : pred (f x) = true := by rw [hp]; exact h
      rw [updateFirst, if_pos h, List.find?_cons_of_pos _ hfx, List.find?_cons_of_pos _ h]
      rfl
    · have h' : ¬ pred x = true := h
      rw [updateFirst, if_neg h', List.find?_cons_of_neg _ h', List.find?_cons_of_neg _ h', ih]

theorem updateFirst_idem {α : Type} (pred : α → Bool) (f : α → α)
    (hp : ∀ a, pred (f a) = pred a) (hf : ∀ a, f (f a) = f a) (l : List α) :
    updateFirst pred f (updateFirst pred f l) = updateFirst pred f l := by
  induction l with
  | nil => rfl
  | cons x xs ih =>
    by_cases h : pred x = true
    · have hfx : pred (f x) = true := by rw [hp]; exact h
      rw [updateFirst, if_pos h, updateFirst, if_pos hfx, hf]
    · rw [updateFirst, if_neg h, updateFirst, if_neg h, ih]

theorem mem_updateFirst {α : Type} {pred : α → Bool} {f : α → α} {l : List α} {a : α}
    (h : a ∈ updateFirst pred f l) :
    a ∈ l ∨ ∃ b, l.find? pred = some b ∧ a = f b := by
  induction l with
  | nil => rw [updateFirst] at h; exact absurd h (List.not_mem_nil a)
  | cons x xs ih =>
    by_cases hx : pred x = true
    · rw [updateFirst, if_pos hx] at h
      rcases List.mem_cons.mp h with h1 | h1
      · exact Or.inr ⟨x, List.find?_cons_of_pos _ hx, h1⟩
      · exact Or.inl (List.mem_cons_of_mem _ h1)
    · rw [updateFirst, if_neg hx] at h
      rcases List.mem_cons.mp h with h1 | h1
      · exact Or.inl (h1 ▸ List.mem_cons_self x xs)
      · rcases ih h1 with h2 | ⟨b, hb1, hb2⟩
        · exact Or.inl (List.mem_cons_of_mem _ h2)
        · exact Or.inr ⟨b, by rw [List.find?_cons_of_neg _ hx]; exact hb1, hb2⟩

theorem resSlot_fst (ids : List String) (p : String × Slot) : (resSlot ids p).1 = p.1 := by
  unfold resSlot; split <;> rfl

theorem resSlot_booked (ids : List String) (p : String × Slot)
    (h : p.2.status = "booked") : (resSlot ids p).2.status = "booked" := by
  unfold resSlot; split
  · next hc => rw [h] at hc; exact absurd hc.2 (by decide)
  · exact h

theorem bookSlot_fst (ids : List String) (p : String × Slot) : (bookSlot ids p).1 = p.1 := by
  unfold bookSlot; split <;> rfl

theorem bookSlot_booked (ids : List String) (p : String × Slot)
    (h : p.2.status = "booked") : (bookSlot ids p).2.status = "booked" := by
  unfold bookSlot; split
  · rfl
  · exact h

theorem bookSlot_mem (ids : List String) (p : String × Slot) (h : p.1 ∈ ids) :
    (bookSlot ids p).2.status = "booked" := by
  unfold bookSlot; rw [if_pos h]

theorem booked_mono_map {f : String × Slot → String × Slot}
    (h1 : ∀ p, (f p).1 = p.1)
    (h2 : ∀ p, p.2.status = "booked" → (f p).2.status = "booked")
    {slots : List (String × Slot)} {sid : String}
    (h : ∀ q ∈ slots, q.1 = sid → q.2.status = "booked") :
    ∀ q ∈ slots.map f, q.1 = sid → q.2.status = "booked" := by
  intro q hq hqs
  rcases List.mem_map.mp hq with ⟨q0, hq0, rfl⟩
  exact h2 q0 (h q0 hq0 (by rw [← h1 q0]; exact hqs))

theorem bookSlots_booked {slots : List (String × Slot)} {ids : List String} :
    ∀ q ∈ bookSlots slots ids, q.1 ∈ ids → q.2.status = "booked" := by
  intro q hq hqs
  rcases List.mem_map.mp hq with ⟨q0, hq0, rfl⟩
  by_cases h : q0.1 ∈ ids
  · exact bookSlot_mem ids q0 h
  · rw [bookSlot_fst] at hqs; exact absurd hqs h

theorem bookSlot_idem (ids : List String) (p : String × Slot) :
    bookSlot ids (bookSlot ids p) = bookSlot ids p := by
  unfold bookSlot
  by_cases h : p.1 ∈ ids
  · simp [h]
  · simp [h]

theorem bookSlots_idem (slots : List (String × Slot)) (ids : List String) :
    bookSlots (bookSlots slots ids) ids = bookSlots slots ids := by
  unfold bookSlots
  rw [List.map_map]
  apply List.map_congr_left
  intro a _
  exact bookSlot_idem ids a

theorem availFilter_nodup {slots : List (String × Slot)}
    (hnd : (slots.map Prod.fst).Nodup) {pred : String × Slot → Bool} :
    ((slots.filter pred).map Prod.fst).Nodup :=
  hnd.sublist ((List.filter_sublist slots).map Prod.fst)

theorem filter_count_lt {slots : List (String × Slot)} {ids : List String}
    (hnd : (slots.map Prod.fst).Nodup) {bad : String} (hbad : bad ∈ ids)
    (hbadslot : ∀ p ∈ slots, (p : String × Slot).1 = bad → p.2.status ≠ "available") :
    (slots.filter (fun p => decide (p.1 ∈ ids ∧ p.2.status = "available"))).length
      < ids.length := by
  have hmem : ∀ x ∈ (slots.filter
      (fun p => decide (p.1 ∈ ids ∧ p.2.status = "available"))).map Prod.fst,
      x ∈ ids.erase bad := by
    intro x hx
    rcases List.mem_map.mp hx with ⟨p, hp, rfl⟩
    have hp' := List.mem_filter.mp hp
    have hcond := of_decide_eq_true hp'.2
    have hxne : p.1 ≠ bad := fun he => hbadslot p hp'.1 he hcond.2
    exact (List.mem_erase_of_ne hxne).mpr hcond.1
  have hsp := (availFilter_nodup hnd).subperm hmem
  have hle := hsp.length_le
  rw [List.length_map] at hle
  have herase := List.length_erase_add_one hbad
  omega

theorem filter_count_lt_of_dup {slots : List (String × Slot)} {ids : List String}
    (hnd : (slots.map Prod.fst).Nodup) (hdup : ¬ ids.Nodup) :
    (slots.filter (fun p => decide (p.1 ∈ ids ∧ p.2.status = "available"))).length
      < ids.length := by
  have hmem : ∀ x ∈ (slots.filter
      (fun p => decide (p.1 ∈ ids ∧ p.2.status = "available"))).map Prod.fst,
      x ∈ ids.dedup := by
    intro x hx
    rcases List.mem_map.mp hx with ⟨p, hp, rfl⟩
    have hcond := of_decide_eq_true (List.mem_filter.mp hp).2
    exact List.mem_dedup.mpr hcond.1
  have hsp := (availFilter_nodup hnd).subperm hmem
  have hle := hsp.length_le
  rw [List.length_map] at hle
  have hdsub : List.Sublist ids.dedup ids := List.dedup_sublist ids
  have hdle := hdsub.length_le
  rcases Nat.lt_or_ge ids.dedup.length ids.length with hlt | hge
  · omega
  · exfalso
    exact hdup (hdsub.eq_of_length (Nat.le_antisymm hdle hge) ▸ List.nodup_dedup ids)

theorem foundSlots_length_eq {slots : List (String × Slot)} {ids : List String}
    (hnd : (slots.map Prod.fst).Nodup) (hni : ids.Nodup)
    (hex : ∀ sid ∈ ids, ∃ p ∈ slots, (p : String × Slot).1 = sid) :
    (foundSlots slots ids).length = ids.length := by
  have hmem1 : ∀ x ∈ (foundSlots slots ids).map Prod.fst, x ∈ ids := by
    intro x hx
    rcases List.mem_map.mp hx with ⟨p, hp, rfl⟩
    exact of_decide_eq_true (List.mem_filter.mp hp).2
  have hsp1 := (availFilter_nodup hnd).subperm hmem1
  have hle1 := hsp1.length_le
  rw [List.length_map] at hle1
  have hmem2 : ∀ x ∈ ids, x ∈ (foundSlots slots ids).map Prod.fst := by
    intro x hx
    rcases hex x hx with ⟨p, hp, rfl⟩
    exact List.mem_map_of_mem Prod.fst
      (List.mem_filter.mpr ⟨hp, decide_eq_true hx⟩)
  have hsp2 := hni.subperm hmem2
  have hle2 := hsp2.length_le
  rw [List.length_map] at hle2
  exact Nat.le_antisymm hle1 hle2

/-! Equation lemmas for the three handlers. -/

theorem reserve_slots_fst (st : Store) (u : String) (ids : List String) :
    (reserve_slots st u ids).1 = { st with slots := st.slots.map (resSlot ids) } := rfl

theorem reserve_slots_snd (st : Store) (u : String) (ids : List String) :
    (reserve_slots st u ids).2 =
      if (st.slots.filter (fun p => decide (p.1 ∈ ids ∧ p.2.status = "available"))).length
          ≠ ids.length
      then Except.error Err.SlotConflict else Except.ok ids := rfl

theorem create_booking_delegate (cfg : Config) (gw : Option Order) (st : Store)
    (u v : String) (ids : List String) {pv : String × Venue}
    (hv : st.venues.find? (fun p => p.1 == v) = some pv) :
    create_booking cfg gw st u v ids = create_booking_checked cfg gw st u v ids pv := by
  unfold create_booking
  cases hcase : st.venues.find? (fun p => p.1 == v) with
  | none => rw [hcase] at hv; exact absurd hv (by simp)
  | some pv' =>
    rw [hcase] at hv
    injection hv with hv
    subst hv
    rfl

theorem create_booking_success_eq (cfg : Config) (gw : Option Order) (st : Store)
    (u v : String) (ids : List String) {pv : String × Venue}
    (hv : st.venues.find? (fun p => p.1 == v) = some pv)
    (hlen : (foundSlots st.slots ids).length = ids.length)
    (hok : hasTerminal (foundSlots st.slots ids) = false) :
    create_booking cfg gw st u v ids =
      ({ st with
          slots := st.slots.map (resSlot ids),
          bookings := st.bookings ++
            [(genId st.nextOid, mkBooking u v ids (bookingTotal pv.2 ids))],
          payments := st.payments ++
            [mkPayment (genId st.nextOid) (bookingTotal pv.2 ids)
              (chosenOrder cfg gw (genId st.nextOid) (bookingTotal pv.2 ids)).id],
          nextOid := st.nextOid + 1 },
       Except.ok { bookingId := genId st.nextOid, totalAmount := bookingTotal pv.2 ids,
                   order := chosenOrder cfg gw (genId st.nextOid) (bookingTotal pv.2 ids),
                   razorpayKeyId := cfg.keyId }) := by
  rw [create_booking_delegate cfg gw st u v ids hv]
  unfold create_booking_checked
  rw [if_neg (by rw [hlen]; exact fun h => h rfl),
    if_neg (by rw [hok]; exact Bool.false_ne_true)]
  rfl

theorem create_booking_invalid_eq (cfg : Config) (gw : Option Order) (st : Store)
    (u v : String) (ids : List String) {pv : String × Venue}
    (hv : st.venues.find? (fun p => p.1 == v) = some pv)
    (hlen : (foundSlots st.slots ids).length ≠ ids.length) :
    create_booking cfg gw st u v ids = (st, Except.error Err.InvalidSlots) := by
  rw [create_booking_delegate cfg gw st u v ids hv]
  unfold create_booking_checked
  rw [if_pos hlen]

theorem create_booking_terminal_eq (cfg : Config) (gw : Option Order) (st : Store)
    (u v : String) (ids : List String) {pv : String × Venue}
    (hv : st.venues.find? (fun p => p.1 == v) = some pv)
    (hlen : (foundSlots st.slots ids).length = ids.length)
    (hterm : hasTerminal (foundSlots st.slots ids) = true) :
    create_booking cfg gw st u v ids = (st, Except.error Err.SlotNotBookable) := by
  rw [create_booking_delegate cfg gw st u v ids hv]
  unfold create_booking_checked
  rw [if_neg (by rw [hlen]; exact fun h => h rfl), if_pos hterm]

theorem confirm_payment_sig_eq (cfg : Config) (hm : String → String → String)
    (st : Store) (args : ConfirmArgs) (hsig : sigMismatch cfg hm args = true) :
    confirm_payment cfg hm st args = (st, Except.error Err.SignatureMismatch) := by
  unfold confirm_payment
  rw [hsig]
  rfl

theorem confirm_payment_notfound_eq (cfg : Config) (hm : String → String → String)
    (st : Store) (args : ConfirmArgs) (hsig : sigMismatch cfg hm args = false)
    (hfb : st.bookings.find? (fun p => p.1 == args.bookingId) = none) :
    confirm_payment cfg hm st args = (st, Except.error Err.BookingNotFound) := by
  unfold confirm_payment
  rw [hsig, hfb]
  rfl

theorem confirm_payment_found_eq (cfg : Config) (hm : String → String → String)
    (st : Store) (args : ConfirmArgs) {pr : String × Booking}
    (hsig : sigMismatch cfg hm args = false)
    (hfb : st.bookings.find? (fun p => p.1 == args.bookingId) = some pr) :
    confirm_payment cfg hm st args =
      ({ st with
          bookings := updateFirst (fun p => p.1 == args.bookingId)
            (fun p => (p.1, confirmBookingUpd args.razorpay_payment_id p.2)) st.bookings,
          slots := bookSlots st.slots pr.2.slotIds,
          payments := updateFirst (fun p => p.bookingId == args.bookingId)
            (confirmPaymentUpd args.razorpay_payment_id) st.payments },
       Except.ok "confirmed") := by
  unfold confirm_payment
  rw [hsig, hfb]
  rfl

theorem chosenOrder_fallback (cfg : Config) (gw : Option Order) (bid : String) (total : ℚ)
    (hfail : cfg.keyId = "" ∨ cfg.keySecret = "" ∨ gw = none) :
    chosenOrder cfg gw bid total = fallbackOrder bid total := by
  unfold chosenOrder
  rcases hfail with h | h | h
  · rw [if_neg (by rw [h]; exact fun hc => hc.1 rfl)]
  · rw [if_neg (by rw [h]; exact fun hc => hc.2 rfl)]
  · subst h
    split <;> rfl

theorem sigMismatch_none (cfg : Config) (hm : String → String → String)
    (bid pid o : String) : sigMismatch cfg hm ⟨bid, pid, o, none⟩ = false := rfl

theorem sigMismatch_no_secret (cfg : Config) (hm : String → String → String)
    (args : ConfirmArgs) (h : cfg.keySecret = "") : sigMismatch cfg hm args = false := by
  unfold sigMismatch
  cases args.razorpay_signature with
  | none => rfl
  | some s => simp [h]

theorem sigMismatch_some_true (cfg : Config) (hm : String → String → String)
    (bid pid o s : String) (hs : s ≠ "") (hk : cfg.keySecret ≠ "")
    (hne : hm cfg.keySecret (o ++ "|" ++ pid) ≠ s) :
    sigMismatch cfg hm ⟨bid, pid, o, some s⟩ = true := by
  show (if s = "" ∨ cfg.keySecret = "" then false
        else decide (hm cfg.keySecret (o ++ "|" ++ pid) ≠ s)) = true
  rw [if_neg (by rintro (h | h); exact hs h; exact hk h)]
  exact decide_eq_true hne

theorem create_booking_venue_none_eq (cfg : Config) (gw : Option Order) (st : Store)
    (u v : String) (ids : List String)
    (hv : st.venues.find? (fun p => p.1 == v) = none) :
    create_booking cfg gw st u v ids = (st, Except.error Err.VenueNotFound) := by
  unfold create_booking
  rw [hv]

theorem create_booking_fst_cases (cfg : Config) (gw : Option Order) (st : Store)
    (u v : String) (ids : List String) :
    (create_booking cfg gw st u v ids).1 = st ∨
    ∃ t : ℚ, (create_booking cfg gw st u v ids).1 =
      { st with
          slots := st.slots.map (resSlot ids),
          bookings := st.bookings ++ [(genId st.nextOid, mkBooking u v ids t)],
          payments := st.payments ++ [mkPayment (genId st.nextOid) t
            (chosenOrder cfg gw (genId st.nextOid) t).id],
          nextOid := st.nextOid + 1 } := by
  cases hv : st.venues.find? (fun p => p.1 == v) with
  | none => left; rw [create_booking_venue_none_eq cfg gw st u v ids hv]
  | some pv =>
    by_cases h1 : (foundSlots st.slots ids).length ≠ ids.length
    · left; rw [create_booking_invalid_eq cfg gw st u v ids hv h1]
    · have h1' : (foundSlots st.slots ids).length = ids.length := not_not.mp h1
      by_cases h2 : hasTerminal (foundSlots st.slots ids) = true
      · left; rw [create_booking_terminal_eq cfg gw st u v ids hv h1' h2]
      · have h2' : hasTerminal (foundSlots st.slots ids) = false := by
          cases hb : hasTerminal (foundSlots st.slots ids)
          · rfl
          · exact absurd hb h2
        right
        exact ⟨bookingTotal pv.2 ids,
          by rw [create_booking_success_eq cfg gw st u v ids hv h1' h2']⟩

theorem confirm_payment_fst_cases (cfg : Config) (hm : String → String → String)
    (st : Store) (args : ConfirmArgs) :
    (confirm_payment cfg hm st args).1 = st ∨
    ∃ pr, st.bookings.find? (fun p => p.1 == args.bookingId) = some pr ∧
      (confirm_payment cfg hm st args).1 =
        { st with
            bookings := updateFirst (fun p => p.1 == args.bookingId)
              (fun p => (p.1, confirmBookingUpd args.razorpay_payment_id p.2)) st.bookings,
            slots := bookSlots st.slots pr.2.slotIds,
            payments := updateFirst (fun p => p.bookingId == args.bookingId)
              (confirmPaymentUpd args.razorpay_payment_id) st.payments } := by
  by_cases hsig : sigMismatch cfg hm args = true
  · left; rw [confirm_payment_sig_eq cfg hm st args hsig]
  · have hsig' : sigMismatch cfg hm args = false := by
      cases hb : sigMismatch cfg hm args
      · rfl
      · exact absurd hb hsig
    cases hfb : st.bookings.find? (fun p => p.1 == args.bookingId) with
    | none => left; rw [confirm_payment_notfound_eq cfg hm st args hsig' hfb]
    | some pr =>
      right
      exact ⟨pr, rfl, by rw [confirm_payment_found_eq cfg hm st args hsig' hfb]⟩

/-! Preservation of the paid-booking invariant by each public operation. -/

theorem paidInv_reserve (st : Store) (u : String) (ids : List String)
    (hinv : PaidInv st) : PaidInv (reserve_slots st u ids).1 := by
  rw [reserve_slots_fst]
  intro pb hpb hpaid
  rcases hinv pb hpb hpaid with ⟨hc, hs⟩
  exact ⟨hc, fun sid hsid =>
    booked_mono_map (resSlot_fst ids) (resSlot_booked ids) (hs sid hsid)⟩

theorem paidInv_create (cfg : Config) (gw : Option Order) (st : Store)
    (u v : String) (ids : List String) (hinv : PaidInv st) :
    PaidInv (create_booking cfg gw st u v ids).1 := by
  rcases create_booking_fst_cases cfg gw st u v ids with hc | ⟨t, hc⟩
  · rw [hc]; exact hinv
  · rw [hc]
    intro pb hpb hpaid
    rcases List.mem_append.mp hpb with h1 | h1
    · rcases hinv pb h1 hpaid with ⟨hcf, hs⟩
      exact ⟨hcf, fun sid hsid =>
        booked_mono_map (resSlot_fst ids) (resSlot_booked ids) (hs sid hsid)⟩
    · exfalso
      have hpb' : pb = (genId st.nextOid, mkBooking u v ids t) := by simpa using h1
      rw [hpb'] at hpaid
      exact absurd hpaid (by simp [mkBooking])

theorem paidInv_confirm (cfg : Config) (hm : String → String → String)
    (st : Store) (args : ConfirmArgs) (hinv : PaidInv st) :
    PaidInv (confirm_payment cfg hm st args).1 := by
  rcases confirm_payment_fst_cases cfg hm st args with hc | ⟨pr, hfb, hc⟩
  · rw [hc]; exact hinv
  · rw [hc]
    intro pb hpb hpaid
    rcases mem_updateFirst hpb with h1 | ⟨b0, hb0, rfl⟩
    · rcases hinv pb h1 hpaid with ⟨hcf, hs⟩
      exact ⟨hcf, fun sid hsid =>
        booked_mono_map (bookSlot_fst pr.2.slotIds) (bookSlot_booked pr.2.slotIds)
          (hs sid hsid)⟩
    · obtain rfl : pr = b0 := Option.some.inj (hfb ▸ hb0)
      refine ⟨rfl, fun sid hsid q hq hq1 => ?_⟩
      exact bookSlots_booked q hq (by rw [hq1]; exact hsid)

theorem step_preserves {cfg : Config} {s t : Store} (hstep : Step cfg s t)
    (hinv : PaidInv s) : PaidInv t := by
  cases hstep with
  | reserve u ids => exact paidInv_reserve _ u ids hinv
  | create gw u v ids => exact paidInv_create cfg gw _ u v ids hinv
  | confirm hm args => exact paidInv_confirm cfg hm _ args hinv

/-! Claim theorems. -/

/-- C1 counterexample: reserving the set {s1, s2} where s1 is available and s2
is already booked fails with SlotConflict, yet s1 has been transitioned from
available to reserved on the failure path — the claim's "no slot in S has its
status changed" is false on the code, because the handler runs the conditional
update first and only afterwards compares modified_count. -/
theorem reserve_failure_mutates_cex :
    (reserve_slots stMixed "u1" ["s1", "s2"]).2 = Except.error Err.SlotConflict ∧
    ("s1", slotA) ∈ stMixed.slots ∧ slotA.status = "available" ∧
    ("s1", { slotA with status := "reserved" })
      ∈ (reserve_slots stMixed "u1" ["s1", "s2"]).1.slots := by
  refine ⟨rfl, ?_, rfl, ?_⟩ <;> decide

/-- C1 (amended): if some slot id in the request is not currently available
(reserved, booked, blocked or missing), reserve fails with SlotConflict;
however the operation is not all-or-nothing: every requested slot that was
available has been transitioned to reserved by the failing call, and only the
slots that did not match the conditional update are left unchanged. -/
theorem reserve_conflict_partial_mutation (st : Store) (u : String) (ids : List String)
    (bad : String)
    (hnd : (st.slots.map Prod.fst).Nodup)
    (hbad : bad ∈ ids)
    (hbadslot : ∀ p ∈ st.slots, (p : String × Slot).1 = bad → p.2.status ≠ "available") :
    (reserve_slots st u ids).2 = Except.error Err.SlotConflict ∧
    (∀ q ∈ st.slots, ¬(q.1 ∈ ids ∧ q.2.status = "available") →
      q ∈ (reserve_slots st u ids).1.slots) ∧
    (∀ q ∈ st.slots, q.1 ∈ ids → q.2.status = "available" →
      (q.1, { q.2 with status := "reserved" }) ∈ (reserve_slots st u ids).1.slots) := by
  refine ⟨?_, ?_, ?_⟩
  · rw [reserve_slots_snd]
    rw [if_pos (Nat.ne_of_lt (filter_count_lt hnd hbad hbadslot))]
  · intro q hq hcond
    rw [reserve_slots_fst]
    have hres : resSlot ids q = q := by unfold resSlot; rw [if_neg hcond]
    exact hres ▸ List.mem_map_of_mem (resSlot ids) hq
  · intro q hq h1 h2
    rw [reserve_slots_fst]
    have hres : resSlot ids q = (q.1, { q.2 with status := "reserved" }) := by
      unfold resSlot; rw [if_pos ⟨h1, h2⟩]
    exact hres ▸ List.mem_map_of_mem (resSlot ids) hq

/-- C1 amended witness at a concrete store: s1 available, s2 booked. -/
theorem reserve_conflict_partial_mutation_witness :
    (reserve_slots stMixed "u1" ["s1", "s2"]).2 = Except.error Err.SlotConflict ∧
    (∀ q ∈ stMixed.slots, ¬(q.1 ∈ ["s1", "s2"] ∧ q.2.status = "available") →
      q ∈ (reserve_slots stMixed "u1" ["s1", "s2"]).1.slots) ∧
    (∀ q ∈ stMixed.slots, q.1 ∈ ["s1", "s2"] → q.2.status = "available" →
      (q.1, { q.2 with status := "reserved" })
        ∈ (reserve_slots stMixed "u1" ["s1", "s2"]).1.slots) :=
  reserve_conflict_partial_mutation stMixed "u1" ["s1", "s2"] "s2"
    (by decide) (by decide) (by decide)

/-- C10: a reserve request whose id list contains a duplicate fails with the
slot-conflict error (HTTP 409) even when every distinct referenced slot exists
and is available, because modified_count (which counts distinct documents) is
compared against the length of the request list including duplicates. -/
theorem reserve_duplicate_ids_conflict (st : Store) (u : String) (ids : List String)
    (hnd : (st.slots.map Prod.fst).Nodup)
    (hdup : ¬ ids.Nodup)
    (hav : ∀ sid ∈ ids, ∃ p ∈ st.slots,
      (p : String × Slot).1 = sid ∧ p.2.status = "available") :
    (reserve_slots st u ids).2 = Except.error Err.SlotConflict ∧
    errCode Err.SlotConflict = 409 := by
  refine ⟨?_, rfl⟩
  rw [reserve_slots_snd]
  rw [if_pos (Nat.ne_of_lt (filter_count_lt_of_dup hnd hdup))]

/-- C10 witness: both distinct slots of the request list are available, the
list duplicates s1, and the call still fails with SlotConflict. -/
theorem reserve_duplicate_ids_conflict_witness :
    (reserve_slots stAvail "u1" ["s1", "s1"]).2 = Except.error Err.SlotConflict ∧
    errCode Err.SlotConflict = 409 :=
  reserve_duplicate_ids_conflict stAvail "u1" ["s1", "s1"]
    (by decide) (by decide) (by decide)

/-- C4: when a signature is supplied (nonempty) and a gateway secret is
configured, a signature different from the recomputed HMAC hexdigest of
`orderId|paymentId` makes confirm_payment fail with SignatureMismatch and
leaves the whole store — bookings, payments, slots — untouched. -/
theorem confirm_signature_mismatch_no_mutation (cfg : Config)
    (hm : String → String → String) (st : Store) (bid pid o s : String)
    (hs : s ≠ "") (hk : cfg.keySecret ≠ "")
    (hne : hm cfg.keySecret (o ++ "|" ++ pid) ≠ s) :
    confirm_payment cfg hm st ⟨bid, pid, o, some s⟩
      = (st, Except.error Err.SignatureMismatch) :=
  confirm_payment_sig_eq cfg hm st _ (sigMismatch_some_true cfg hm bid pid o s hs hk hne)

/-- C4 witness: a wrong signature against the configured secret is rejected
with no mutation of the pending-booking store. -/
theorem confirm_signature_mismatch_no_mutation_witness :
    confirm_payment cfg1 (fun _ _ => "digest") stPend ⟨"b1", "p1", "o1", some "x"⟩
      = (stPend, Except.error Err.SignatureMismatch) :=
  confirm_signature_mismatch_no_mutation cfg1 (fun _ _ => "digest") stPend "b1" "p1" "o1" "x"
    (by decide) (by decide) (by decide)

/-- C9: confirm_payment never consults the stored Payment.orderId: two calls
that differ only in the supplied gateway order id, with no signature supplied
(or no secret configured), return the same result and the same final store. -/
theorem confirm_ignores_gateway_order_id (cfg : Config) (hm : String → String → String)
    (st : Store) (bid pid o1 o2 : String) (sig : Option String)
    (h : sig = none ∨ cfg.keySecret = "") :
    confirm_payment cfg hm st ⟨bid, pid, o1, sig⟩
      = confirm_payment cfg hm st ⟨bid, pid, o2, sig⟩ := by
  have h1 : sigMismatch cfg hm ⟨bid, pid, o1, sig⟩ = false := by
    rcases h with h | h
    · rw [h]; exact sigMismatch_none cfg hm bid pid o1
    · exact sigMismatch_no_secret cfg hm _ h
  have h2 : sigMismatch cfg hm ⟨bid, pid, o2, sig⟩ = false := by
    rcases h with h | h
    · rw [h]; exact sigMismatch_none cfg hm bid pid o2
    · exact sigMismatch_no_secret cfg hm _ h
  unfold confirm_payment
  rw [h1, h2]

/-- C9 witness: with a configured secret but no signature supplied, changing
only the order id gives identical results on the pending-booking store. -/
theorem confirm_ignores_gateway_order_id_witness :
    confirm_payment cfg1 (fun _ _ => "digest") stPend ⟨"b1", "p1", "oA", none⟩
      = confirm_payment cfg1 (fun _ _ => "digest") stPend ⟨"b1", "p1", "oB", none⟩ :=
  confirm_ignores_gateway_order_id cfg1 (fun _ _ => "digest") stPend "b1" "p1" "oA" "oB" none
    (Or.inl rfl)

/-- C5 counterexample: venue v1 exists and referenced slot s2 exists in the
terminal state booked, but the request also names the missing slot s3, so
create_booking fails with the 400 "Invalid slots" error, not SlotNotBookable —
the claim's unconditional "fails with SlotNotBookable" is false on the code
because the existence check runs first. -/
theorem create_booking_terminal_slot_cex :
    create_booking cfg0 none stMixed "u1" "v1" ["s2", "s3"]
      = (stMixed, Except.error Err.InvalidSlots) ∧
    Err.InvalidSlots ≠ Err.SlotNotBookable :=
  ⟨rfl, by decide⟩

/-- C5 (amended): when the venue exists, the duplicate-free request references
only existing slots and at least one of them is booked or blocked,
create_booking fails with SlotNotBookable and the store — slots, bookings,
payments — is returned unchanged. -/
theorem create_booking_terminal_slot_rejected (cfg : Config) (gw : Option Order)
    (st : Store) (u v : String) (ids : List String) (pv : String × Venue)
    (hv : st.venues.find? (fun p => p.1 == v) = some pv)
    (hnd : (st.slots.map Prod.fst).Nodup) (hni : ids.Nodup)
    (hex : ∀ sid ∈ ids, ∃ p ∈ st.slots, (p : String × Slot).1 = sid)
    (hbad : ∃ p ∈ st.slots, (p : String × Slot).1 ∈ ids ∧
      (p.2.status = "booked" ∨ p.2.status = "blocked")) :
    create_booking cfg gw st u v ids = (st, Except.error Err.SlotNotBookable) := by
  have hlen := foundSlots_length_eq hnd hni hex
  have hterm : hasTerminal (foundSlots st.slots ids) = true := by
    unfold hasTerminal foundSlots
    apply List.any_eq_true.mpr
    rcases hbad with ⟨p, hp, hpid, hpst⟩
    refine ⟨p, List.mem_filter.mpr ⟨hp, decide_eq_true hpid⟩, ?_⟩
    apply decide_eq_true
    rcases hpst with h | h <;> rw [h] <;> exact ⟨by decide, by decide⟩
  exact create_booking_terminal_eq cfg gw st u v ids hv hlen hterm

/-- C5 amended witness: requesting the available s1 together with the booked s2
is rejected with SlotNotBookable and no mutation. -/
theorem create_booking_terminal_slot_rejected_witness :
    create_booking cfg0 none stMixed "u1" "v1" ["s1", "s2"]
      = (stMixed, Except.error Err.SlotNotBookable) :=
  create_booking_terminal_slot_rejected cfg0 none stMixed "u1" "v1" ["s1", "s2"]
    ("v1", venue1) rfl (by decide) (by decide) (by decide) (by decide)

/-- C6: a successful create_booking returns totalAmount = round(P * max(1, N), 2)
for venue price P and N requested slots, and appends a booking record whose
totalAmount equals it and whose commission is round(total * 0.10, 2). -/
theorem create_booking_amounts (cfg : Config) (gw : Option Order) (st : Store)
    (u v : String) (ids : List String) (pv : String × Venue) (resp : BookingResp)
    (hv : st.venues.find? (fun p => p.1 == v) = some pv)
    (h : (create_booking cfg gw st u v ids).2 = Except.ok resp) :
    resp.totalAmount = round2 (pv.2.pricePerHour * ((max 1 ids.length : ℕ) : ℚ)) ∧
    ∃ b : Booking,
      (create_booking cfg gw st u v ids).1.bookings
        = st.bookings ++ [(resp.bookingId, b)] ∧
      b.totalAmount = resp.totalAmount ∧
      b.commission = round2 (b.totalAmount * (1/10)) := by
  by_cases h1 : (foundSlots st.slots ids).length ≠ ids.length
  · rw [create_booking_invalid_eq cfg gw st u v ids hv h1] at h
    exact absurd h (by simp)
  · have h1' := not_not.mp h1
    by_cases h2 : hasTerminal (foundSlots st.slots ids) = true
    · rw [create_booking_terminal_eq cfg gw st u v ids hv h1' h2] at h
      exact absurd h (by simp)
    · have h2' : hasTerminal (foundSlots st.slots ids) = false := by
        cases hb : hasTerminal (foundSlots st.slots ids)
        · rfl
        · exact absurd hb h2
      rw [create_booking_success_eq cfg gw st u v ids hv h1' h2'] at h
      have hresp : resp =
          { bookingId := genId st.nextOid,
            totalAmount := bookingTotal pv.2 ids,
            order := chosenOrder cfg gw (genId st.nextOid) (bookingTotal pv.2 ids),
            razorpayKeyId := cfg.keyId } := (Except.ok.inj h).symm
      subst hresp
      rw [create_booking_success_eq cfg gw st u v ids hv h1' h2']
      exact ⟨rfl, mkBooking u v ids (bookingTotal pv.2 ids), rfl, rfl, rfl⟩

/-- C6 witness: venue price 500, two slots requested, total 1000.00 and
commission 100.00 recorded. -/
theorem create_booking_amounts_witness :
    respW.totalAmount
      = round2 (venue1.pricePerHour * ((max 1 (["s1", "s2"] : List String).length : ℕ) : ℚ)) ∧
    ∃ b : Booking,
      (create_booking cfg0 none stAvail "u1" "v1" ["s1", "s2"]).1.bookings
        = stAvail.bookings ++ [(respW.bookingId, b)] ∧
      b.totalAmount = respW.totalAmount ∧
      b.commission = round2 (b.totalAmount * (1/10)) :=
  create_booking_amounts cfg0 none stAvail "u1" "v1" ["s1", "s2"] ("v1", venue1) respW rfl
    (by with_unfolding_all rfl)

/-- C8: for a create_booking call that passes validation, the success of the
call does not depend on the gateway outcome, and when the gateway is
unconfigured or the order call failed, the returned order is the synthesized
fallback: id = "order_" ++ bookingId and amount = int(total * 100). -/
theorem create_booking_gateway_fallback (cfg : Config) (gw : Option Order) (st : Store)
    (u v : String) (ids : List String) (resp : BookingResp)
    (h : (create_booking cfg gw st u v ids).2 = Except.ok resp)
    (hfail : cfg.keyId = "" ∨ cfg.keySecret = "" ∨ gw = none) :
    resp.order.id = "order_" ++ resp.bookingId ∧
    resp.order.amount = pyInt (resp.totalAmount * 100) ∧
    ∀ gw' : Option Order, ∃ resp',
      (create_booking cfg gw' st u v ids).2 = Except.ok resp' := by
  cases hv : st.venues.find? (fun p => p.1 == v) with
  | none =>
    rw [create_booking_venue_none_eq cfg gw st u v ids hv] at h
    exact absurd h (by simp)
  | some pv =>
    by_cases h1 : (foundSlots st.slots ids).length ≠ ids.length
    · rw [create_booking_invalid_eq cfg gw st u v ids hv h1] at h
      exact absurd h (by simp)
    · have h1' := not_not.mp h1
      by_cases h2 : hasTerminal (foundSlots st.slots ids) = true
      · rw [create_booking_terminal_eq cfg gw st u v ids hv h1' h2] at h
        exact absurd h (by simp)
      · have h2' : hasTerminal (foundSlots st.slots ids) = false := by
          cases hb : hasTerminal (foundSlots st.slots ids)
          · rfl
          · exact absurd hb h2
        rw [create_booking_success_eq cfg gw st u v ids hv h1' h2'] at h
        have hresp : resp =
            { bookingId := genId st.nextOid,
              totalAmount := bookingTotal pv.2 ids,
              order := chosenOrder cfg gw (genId st.nextOid) (bookingTotal pv.2 ids),
              razorpayKeyId := cfg.keyId } := (Except.ok.inj h).symm
        subst hresp
        rw [chosenOrder_fallback cfg gw (genId st.nextOid) (bookingTotal pv.2 ids) hfail]
        refine ⟨rfl, rfl, fun gw' => ?_⟩
        exact ⟨_, by rw [create_booking_success_eq cfg gw' st u v ids hv h1' h2']⟩

/-- C8 witness: with unconfigured credentials the two-slot booking succeeds
and returns the synthesized order order_oid0 for 100000 paise. -/
theorem create_booking_gateway_fallback_witness :
    respW.order.id = "order_" ++ respW.bookingId ∧
    respW.order.amount = pyInt (respW.totalAmount * 100) ∧
    ∀ gw' : Option Order, ∃ resp',
      (create_booking cfg0 gw' stAvail "u1" "v1" ["s1", "s2"]).2 = Except.ok resp' :=
  create_booking_gateway_fallback cfg0 none stAvail "u1" "v1" ["s1", "s2"] respW
    (by with_unfolding_all rfl) (Or.inl rfl)

/-- C7: a confirm_payment call that passes or skips the signature check on an
existing pending booking marks the booking paid and confirmed with bookingCode
the gateway payment id, marks every slot referenced by the booking booked, and
marks the payment record of the booking paid with transactionId the gateway
payment id. -/
theorem confirm_payment_success_effects (cfg : Config) (hm : String → String → String)
    (st : Store) (args : ConfirmArgs) (pr : String × Booking) (p0 : Payment)
    (hsig : sigMismatch cfg hm args = false)
    (hfb : st.bookings.find? (fun p => p.1 == args.bookingId) = some pr)
    (hpend : pr.2.status = "pending")
    (hpay : st.payments.find? (fun p => p.bookingId == args.bookingId) = some p0) :
    (confirm_payment cfg hm st args).2 = Except.ok "confirmed" ∧
    (∃ b' : Booking,
      (confirm_payment cfg hm st args).1.bookings.find? (fun p => p.1 == args.bookingId)
        = some (pr.1, b') ∧
      b'.paymentStatus = "paid" ∧ b'.status = "confirmed" ∧
      b'.bookingCode = some args.razorpay_payment_id ∧ b'.slotIds = pr.2.slotIds) ∧
    (∀ q ∈ (confirm_payment cfg hm st args).1.slots,
      q.1 ∈ pr.2.slotIds → q.2.status = "booked") ∧
    (∃ p' : Payment,
      (confirm_payment cfg hm st args).1.payments.find?
          (fun p => p.bookingId == args.bookingId)
        = some p' ∧ p'.status = "paid" ∧
      p'.transactionId = some args.razorpay_payment_id) := by
  rw [confirm_payment_found_eq cfg hm st args hsig hfb]
  refine ⟨rfl, ?_, ?_, ?_⟩
  · refine ⟨confirmBookingUpd args.razorpay_payment_id pr.2, ?_, rfl, rfl, rfl, rfl⟩
    show (updateFirst (fun p => p.1 == args.bookingId)
        (fun p => (p.1, confirmBookingUpd args.razorpay_payment_id p.2)) st.bookings).find?
        (fun p => p.1 == args.bookingId) = _
    rw [find?_updateFirst (fun p => p.1 == args.bookingId)
      (fun p => (p.1, confirmBookingUpd args.razorpay_payment_id p.2)) (fun a => rfl)
      st.bookings, hfb]
    rfl
  · intro q hq hqs
    exact bookSlots_booked q hq hqs
  · refine ⟨confirmPaymentUpd args.razorpay_payment_id p0, ?_, rfl, rfl⟩
    show (updateFirst (fun p => p.bookingId == args.bookingId)
        (confirmPaymentUpd args.razorpay_payment_id) st.payments).find?
        (fun p => p.bookingId == args.bookingId) = _
    rw [find?_updateFirst (fun p => p.bookingId == args.bookingId)
      (confirmPaymentUpd args.razorpay_payment_id) (fun a => rfl) st.payments, hpay]
    rfl

/-- C7 witness: confirming the pending booking b1 on the concrete store marks
it paid and confirmed, books both slots and marks the payment paid. -/
theorem confirm_payment_success_effects_witness :
    (confirm_payment cfg0 hm0 stPend argsW).2 = Except.ok "confirmed" ∧
    (∃ b' : Booking,
      (confirm_payment cfg0 hm0 stPend argsW).1.bookings.find?
          (fun p => p.1 == argsW.bookingId)
        = some ("b1", b') ∧
      b'.paymentStatus = "paid" ∧ b'.status = "confirmed" ∧
      b'.bookingCode = some argsW.razorpay_payment_id ∧ b'.slotIds = bookingP.slotIds) ∧
    (∀ q ∈ (confirm_payment cfg0 hm0 stPend argsW).1.slots,
      q.1 ∈ bookingP.slotIds → q.2.status = "booked") ∧
    (∃ p' : Payment,
      (confirm_payment cfg0 hm0 stPend argsW).1.payments.find?
          (fun p => p.bookingId == argsW.bookingId)
        = some p' ∧ p'.status = "paid" ∧
      p'.transactionId = some argsW.razorpay_payment_id) :=
  confirm_payment_success_effects cfg0 hm0 stPend argsW ("b1", bookingP) payP
    rfl rfl rfl rfl

/-- C3 counterexample: with an empty booking store, both identical
confirm_payment calls fail with BookingNotFound, so the claim's "the second
call returns success (no error)" does not hold for every argument tuple. -/
theorem confirm_payment_twice_error_cex :
    (confirm_payment cfg0 hm0 (confirm_payment cfg0 hm0 stEmpty argsW).1 argsW).2
      = Except.error Err.BookingNotFound := rfl

/-- C3 (amended): whenever a confirm_payment call succeeds, repeating it with
the identical arguments succeeds again (returning the same body) and leaves
the booking, payment and slot stores exactly as after the first call. -/
theorem confirm_payment_idempotent (cfg : Config) (hm : String → String → String)
    (st : Store) (args : ConfirmArgs) (r : String)
    (h : (confirm_payment cfg hm st args).2 = Except.ok r) :
    confirm_payment cfg hm (confirm_payment cfg hm st args).1 args
      = ((confirm_payment cfg hm st args).1, Except.ok r) := by
  by_cases hsig : sigMismatch cfg hm args = true
  · rw [confirm_payment_sig_eq cfg hm st args hsig] at h
    exact absurd h (by simp)
  · have hsig' : sigMismatch cfg hm args = false := by
      cases hb : sigMismatch cfg hm args
      · rfl
      · exact absurd hb hsig
    cases hfb : st.bookings.find? (fun p => p.1 == args.bookingId) with
    | none =>
      rw [confirm_payment_notfound_eq cfg hm st args hsig' hfb] at h
      exact absurd h (by simp)
    | some pr =>
      have hr : r = "confirmed" := by
        rw [confirm_payment_found_eq cfg hm st args hsig' hfb] at h
        exact (Except.ok.inj h).symm
      subst hr
      rw [confirm_payment_found_eq cfg hm st args hsig' hfb]
      have hfb2 : (updateFirst (fun p => p.1 == args.bookingId)
          (fun p => (p.1, confirmBookingUpd args.razorpay_payment_id p.2)) st.bookings).find?
            (fun p => p.1 == args.bookingId)
          = some (pr.1, confirmBookingUpd args.razorpay_payment_id pr.2) := by
        rw [find?_updateFirst (fun p => p.1 == args.bookingId)
          (fun p => (p.1, confirmBookingUpd args.razorpay_payment_id p.2)) (fun a => rfl)
          st.bookings, hfb]
        rfl
      rw [confirm_payment_found_eq cfg hm _ args hsig' hfb2]
      have hbk := updateFirst_idem (fun p : String × Booking => p.1 == args.bookingId)
        (fun p => (p.1, confirmBookingUpd args.razorpay_payment_id p.2))
        (fun a => rfl) (fun a => rfl) st.bookings
      have hpy := updateFirst_idem (fun p : Payment => p.bookingId == args.bookingId)
        (confirmPaymentUpd args.razorpay_payment_id)
        (fun a => rfl) (fun a => rfl) st.payments
      have hsl := bookSlots_idem st.slots pr.2.slotIds
      rw [Prod.mk.injEq]
      refine ⟨?_, rfl⟩
      rw [Store.mk.injEq]
      exact ⟨rfl, hsl, hbk, hpy, rfl⟩

/-- C3 amended witness: confirming the pending booking b1 twice gives the same
store as confirming it once, and the second call succeeds. -/
theorem confirm_payment_idempotent_witness :
    confirm_payment cfg0 hm0 (confirm_payment cfg0 hm0 stPend argsW).1 argsW
      = ((confirm_payment cfg0 hm0 stPend argsW).1, Except.ok "confirmed") :=
  confirm_payment_idempotent cfg0 hm0 stPend argsW "confirmed" rfl

/-- C2: in every store reachable from a bookingless initial store by any
sequence of the public operations (reserve, createBooking, confirmPayment),
a booking with paymentStatus paid has status confirmed, and every slot
document referenced by such a booking has status booked. -/
theorem paid_implies_confirmed_and_booked (cfg : Config) (st0 st : Store)
    (h0 : st0.bookings = []) (hr : Reachable cfg st0 st) : PaidInv st := by
  induction hr with
  | refl =>
    intro pb hpb _
    rw [h0] at hpb
    exact absurd hpb (List.not_mem_nil pb)
  | tail _hr hstep ih => exact step_preserves hstep ih

/-- C2 witness: the invariant holds after one createBooking step from the
concrete two-slot store. -/
theorem paid_implies_confirmed_and_booked_witness :
    PaidInv (create_booking cfg0 none stAvail "u1" "v1" ["s1", "s2"]).1 :=
  paid_implies_confirmed_and_booked cfg0 stAvail _ rfl
    (Relation.ReflTransGen.single (Step.create stAvail none "u1" "v1" ["s1", "s2"]))

end SportEase
